import Mathlib

/-!
Verification of the flood-report app (`src/app.py`) against its
natural-language specification.  The Python source is shallowly embedded:
pure helpers become Lean functions over `ℚ`/`String`, exception-raising
library calls are modelled in the `Except` monad with explicit outcomes
passed in as parameters, and the Streamlit session/file state is passed
explicitly.
-/

/-- A coordinate pair (latitude, longitude), as produced by the three
location sources in `app.py`. -/
abbrev Coord : Type := ℚ × ℚ

/-! ### Credential store (`load_users`, `save_users`, `register_user`, `verify_user`) -/

/-- A JSON value, as returned by Python `json.load`.  Only the shape matters
for the claims: an object (dict), or any non-object value. -/
inductive Json where
  | obj : List (String × Json) → Json
  | arr : List Json → Json
  | str : String → Json
  | num : Int → Json
  | boolean : Bool → Json
  | null : Json

/-- Whether a JSON value is an object (a Python dict). -/
def Json.isObj : Json → Bool
  | Json.obj _ => true
  | _ => false

/-- State of the `users.json` file: missing, or present with contents whose
`json.load` outcome is an exception (`Except.error`) or a parsed value. -/
inductive FileState where
  | missing : FileState
  | present : Except Unit Json → FileState

/-- Embeds `load_users` (app.py lines 32-39): a missing file yields the
empty dict, a `json.load` failure is caught and yields the empty dict, and
otherwise the parsed JSON value is returned as-is. -/
def load_users : FileState → Json
  | FileState.missing => Json.obj []
  | FileState.present (Except.error _) => Json.obj []
  | FileState.present (Except.ok v) => v

/-- In-memory credential map, username to password, standing for the JSON
object `{username: {"password": password}}` held in `users.json`. -/
abbrev Users : Type := List (String × String)

/-- Embeds `register_user` (app.py lines 45-51).  The `load_users` /
`save_users` file round-trip is modelled as the credential map passed in and
the (possibly updated) map returned alongside the (ok, message) pair. -/
def register_user (users : Users) (username password : String) :
    (Bool × String) × Users :=
  if (users.lookup username).isSome then
    ((false, "Username already exists"), users)
  else
    ((true, "Registered"), users ++ [(username, password)])

/-- Embeds `verify_user` (app.py lines 53-57): membership plus plaintext
password comparison. -/
def verify_user (users : Users) (username password : String) : Bool :=
  match users.lookup username with
  | some p => p = password
  | none => false

/-! ### DMS conversion and EXIF GPS extraction (`dms_to_decimal`, `extract_gps_from_exif`) -/

/-- Embeds `dms_to_decimal` (app.py lines 59-69).  The Python body indexes
`dms[0]`, `dms[1]`, `dms[2]` inside a try/except returning `None`, so a list
with fewer than three entries yields `none`; otherwise
`degrees + minutes/60 + seconds/3600`, negated when the reference is in
`["S", "W"]`. -/
def dms_to_decimal (dms : List ℚ) (ref : String) : Option ℚ :=
  match dms with
  | d :: m :: s :: _ =>
    let dec := d + m / 60 + s / 3600
    some (if ref ∈ ["S", "W"] then -dec else dec)
  | _ => none

/-- An EXIF rational as exifread yields it: a numerator and a denominator. -/
structure ExifRational where
  num : Int
  den : Int
deriving DecidableEq

/-- `float(x.num) / float(x.den)`: raises `ZeroDivisionError` when the
denominator is zero, modelled as `Except.error`. -/
def ratToDec (x : ExifRational) : Except Unit ℚ :=
  if x.den = 0 then Except.error () else Except.ok ((x.num : ℚ) / (x.den : ℚ))

/-- The list comprehension `[float(x.num) / float(x.den) for x in values]`:
converts each rational in order, propagating the first raised exception. -/
def ratsToDecimals : List ExifRational → Except Unit (List ℚ)
  | [] => Except.ok []
  | x :: rest =>
    match ratToDec x with
    | Except.error e => Except.error e
    | Except.ok v =>
      match ratsToDecimals rest with
      | Except.error e => Except.error e
      | Except.ok vs => Except.ok (v :: vs)

/-- An EXIF GPS coordinate tag (`GPS GPSLatitude` / `GPS GPSLongitude`):
its `values` field is a list of rationals. -/
structure GpsCoordTag where
  values : List ExifRational
deriving DecidableEq

/-- An EXIF GPS reference tag (`GPS GPSLatitudeRef` / `GPS GPSLongitudeRef`):
its `values` field is the reference string (e.g. "N", "S"). -/
structure GpsRefTag where
  values : String
deriving DecidableEq

/-- The four GPS tags `exifread.process_file` may report; `tags.get`
returns `None` (here `none`) for an absent tag. -/
structure ExifTags where
  gpsLat : Option GpsCoordTag
  gpsLatRef : Option GpsRefTag
  gpsLon : Option GpsCoordTag
  gpsLonRef : Option GpsRefTag
deriving DecidableEq

/-- Outcome of `exifread.process_file` on the supplied bytes: an exception
(non-image blob, truncated file, ...) or a tag dictionary.  An image with no
EXIF block yields a dictionary with all four GPS tags absent. -/
abbrev ProcessFileOutcome : Type := Except Unit ExifTags

/-- The body of the `try:` block of `extract_gps_from_exif` (app.py lines
72-90): may raise (propagated from `process_file` or from a zero-denominator
division); returns `some` coordinates when all four tags are present and both
conversions succeed, and otherwise falls through (`Except.ok none`). -/
def extractGpsBody (pf : ProcessFileOutcome) : Except Unit (Option Coord) :=
  match pf with
  | Except.error e => Except.error e
  | Except.ok tags =>
    match tags.gpsLat, tags.gpsLon, tags.gpsLatRef, tags.gpsLonRef with
    | some glat, some glon, some glatRef, some glonRef =>
      match ratsToDecimals glat.values with
      | Except.error e => Except.error e
      | Except.ok lat =>
        match ratsToDecimals glon.values with
        | Except.error e => Except.error e
        | Except.ok lon =>
          match dms_to_decimal lat glatRef.values, dms_to_decimal lon glonRef.values with
          | some latDec, some lonDec => Except.ok (some (latDec, lonDec))
          | _, _ => Except.ok none
    | _, _, _, _ => Except.ok none

/-- Embeds `extract_gps_from_exif` (app.py lines 71-93): the `except
Exception: pass` catches every exception from the body, and the trailing
`return None` makes every non-returning path yield `none`. -/
def extract_gps_from_exif (pf : ProcessFileOutcome) : Option Coord :=
  match extractGpsBody pf with
  | Except.ok r => r
  | Except.error _ => none

/-! ### Location resolution (`col2` block, app.py lines 195-280) -/

/-- A geopy forward-geocoding match: `loc.latitude`, `loc.longitude`,
`loc.address`. -/
structure GeoLocation where
  latitude : ℚ
  longitude : ℚ
  address : String

/-- Embeds the location-extraction flow of the `col2` block (app.py lines
195-280) as a function of the session and oracle outcomes:
`browser` is `st.session_state.browser_coords`; `photo` is absent when no
photo is active, and otherwise carries the combined outcome of
`photo_file.getvalue()` plus `extract_gps_from_exif` (the `try` around the
EXIF block catches an exception as `Except.error`); `placeText` is the
manual place input (Python truthiness: empty string is falsy); `reverse` is
the `reverse_geocode` oracle (it swallows its own exceptions, so it is a
total function to `Option`); `forward` is the outcome of
`geolocator.geocode(place_text)`, whose exceptions the app catches.
Returns the final `(coords, detected_place)` pair. -/
def resolveLocation (browser : Option Coord)
    (photo : Option (Except Unit (Option Coord))) (placeText : String)
    (reverse : Coord → Option String)
    (forward : Except Unit (Option GeoLocation)) : Option Coord × Option String :=
  let step1 : Option Coord × Option String :=
    match browser with
    | some bc => (some bc, reverse bc)
    | none => (none, none)
  let step2 : Option Coord × Option String :=
    match step1.1, photo with
    | none, some (Except.ok (some g)) => (some g, reverse g)
    | _, _ => step1
  if step2.1 = none ∧ placeText ≠ "" then
    match forward with
    | Except.ok (some loc) => (some (loc.latitude, loc.longitude), some loc.address)
    | _ => step2
  else
    step2

/-! ### Severity auto-detect (app.py lines 293-306) -/

/-- Python `s.lower()`, character by character (the keyword lists and
severity labels involved are ASCII, where this matches Python). -/
def pyLower (s : String) : String :=
  String.mk (s.data.map Char.toLower)

/-- Python substring membership `sub in s`, on character lists. -/
def strContainsAux (sub : List Char) : List Char → Bool
  | [] => sub.isEmpty
  | c :: rest => sub.isPrefixOf (c :: rest) || strContainsAux sub rest

/-- Python `sub in s` for strings. -/
def pyIn (sub s : String) : Bool :=
  strContainsAux sub.data s.data

/-- The filename keyword list of the auto-detect heuristic (app.py line 297). -/
def fnKeywords : List String := ["flood", "water", "flooding"]

/-- The message keyword list of the auto-detect heuristic (app.py line 297). -/
def msgKeywords : List String := ["flood", "water", "danger", "submerged"]

/-- The `Auto-detect` branch (app.py lines 295-300): lowercases the photo
filename (`""` when no photo) and the message, and yields `"red"` when any
filename keyword occurs in the filename or any message keyword occurs in the
message, else `"orange"`. -/
def autoDetectColor (photoName : Option String) (message : String) : String :=
  let fn := (photoName.map pyLower).getD ""
  let caption := pyLower message
  if fnKeywords.any (fun k => pyIn k fn) || msgKeywords.any (fun k => pyIn k caption) then
    "red"
  else
    "orange"

/-- Embeds the marker-color selection (app.py lines 293-306): `"green"` by
default, the auto-detect heuristic under `Auto-detect`, and fixed colors for
the explicit `Green`/`Yellow`/`Red` selections. -/
def markerColor (severity : String) (photoName : Option String) (message : String) : String :=
  if severity = "Auto-detect" then
    autoDetectColor photoName message
  else if severity.startsWith "Green" then
    "green"
  else if severity.startsWith "Yellow" then
    "orange"
  else if severity.startsWith "Red" then
    "red"
  else
    "green"

/-! ### Report payload and submit classification (app.py lines 313-341) -/

/-- The `location` object of the payload (app.py lines 320-324). -/
structure ReportLocation where
  latitude : Option ℚ
  longitude : Option ℚ
  place : Option String
deriving DecidableEq

/-- The JSON payload built by the send action (app.py lines 315-325). -/
structure ReportPayload where
  user : String
  message : String
  severity : String
  timestamp : String
  location : ReportLocation

/-- Embeds the payload construction (app.py lines 315-325):
`coords[0] if coords else None` for latitude, `coords[1] if coords else
None` for longitude, and `detected_place` (possibly `None`) for place. -/
def buildPayload (user message severity timestamp : String)
    (coords : Option Coord) (detectedPlace : Option String) : ReportPayload :=
  { user := user
    message := message
    severity := severity
    timestamp := timestamp
    location :=
      { latitude := coords.map Prod.fst
        longitude := coords.map Prod.snd
        place := detectedPlace } }

/-- Outcome classification of the send action. -/
inductive SubmitOutcome where
  | success : SubmitOutcome
  | nonFatalStatus : Nat → SubmitOutcome
  | transportError : String → SubmitOutcome
deriving DecidableEq

/-- Embeds the single `requests.post` classification (app.py lines 334-341):
the argument is the outcome of the one POST — `Except.ok code` when a
response with status `code` was received, `Except.error msg` when the POST
raised.  Status in `(200, 201, 202)` is a success, any other received status
is a warning carrying the code, and a raised exception is a transport
error carrying the message.  There is no retry: the function consumes
exactly one POST outcome. -/
def classify_submit (resp : Except String Nat) : SubmitOutcome :=
  match resp with
  | Except.ok code =>
    if code ∈ [200, 201, 202] then SubmitOutcome.success
    else SubmitOutcome.nonFatalStatus code
  | Except.error e => SubmitOutcome.transportError e

/-! ### Theorems -/

/-- Unfolding equation for `dms_to_decimal` on a full triple, with the
list membership test written as a disjunction. -/
lemma dms_to_decimal_eq (d m s : ℚ) (ref : String) :
    dms_to_decimal [d, m, s] ref =
      some (if ref = "S" ∨ ref = "W" then -(d + m / 60 + s / 3600)
            else d + m / 60 + s / 3600) := by
  simp [dms_to_decimal, List.mem_cons]

/-- Claim C3: for every degree/minute/second triple and reference string,
`dms_to_decimal` returns `d + m/60 + s/3600`, negated exactly when the
reference is "S" or "W"; in particular (30, 30, 0) yields 30.5 under "N" and
-30.5 under "S" (exact rational equality, hence within 1e-6). -/
theorem dms_to_decimal_correct (d m s : ℚ) (ref : String) :
    dms_to_decimal [d, m, s] ref =
      some (if ref = "S" ∨ ref = "W" then -(d + m / 60 + s / 3600)
            else d + m / 60 + s / 3600) ∧
    dms_to_decimal [30, 30, 0] "N" = some (61 / 2) ∧
    dms_to_decimal [30, 30, 0] "S" = some (-(61 / 2)) := by
  refine ⟨dms_to_decimal_eq d m s ref, ?_, ?_⟩
  · rw [dms_to_decimal_eq, if_neg (by decide)]
    norm_num
  · rw [dms_to_decimal_eq, if_pos (by decide)]
    norm_num

/-- Claim C10 counterexample: a `users.json` file whose contents are the
valid JSON array `[]` makes `load_users` return that array unchanged, which
is not a credential map (not a JSON object). -/
theorem load_users_returns_nonobject :
    load_users (FileState.present (Except.ok (Json.arr []))) = Json.arr [] ∧
    (load_users (FileState.present (Except.ok (Json.arr [])))).isObj = false :=
  ⟨rfl, rfl⟩

/-- Claim C10 (amended): `load_users` never raises; a missing file or a
`json.load` failure yields the empty map, and contents that parse as JSON
are returned as-is (a credential map only when the file holds a JSON
object).  With the resulting empty store, every login fails and any
username registers successfully. -/
theorem load_users_spec (v : Json) (u p : String) :
    load_users FileState.missing = Json.obj [] ∧
    load_users (FileState.present (Except.error ())) = Json.obj [] ∧
    load_users (FileState.present (Except.ok v)) = v ∧
    verify_user [] u p = false ∧
    (register_user [] u p).1 = (true, "Registered") :=
  ⟨rfl, rfl, rfl, rfl, rfl⟩

/-- Claim C8: registering a username that is already present fails with
"Username already exists" and returns the credential map unchanged, so the
original password is still the one stored. -/
theorem register_user_duplicate (users : Users) (username password p : String)
    (h : users.lookup username = some p) :
    register_user users username password
        = ((false, "Username already exists"), users) ∧
    (register_user users username password).2.lookup username = some p := by
  constructor
  · simp [register_user, h]
  · simp [register_user, h]

/-- Witness for claim C8 at a concrete store. -/
theorem register_user_duplicate_witness :
    register_user [("alice", "pw1")] "alice" "pw2"
        = ((false, "Username already exists"), [("alice", "pw1")]) ∧
    (register_user [("alice", "pw1")] "alice" "pw2").2.lookup "alice"
        = some "pw1" :=
  register_user_duplicate [("alice", "pw1")] "alice" "pw2" "pw1" (by decide)

/-- Claim C2: a received status in {200, 201, 202} is classified as
success, any other received status as a non-fatal warning carrying that
status code, and a raised POST exception as a transport error; the
classifier consumes the outcome of the single POST (no retry). -/
theorem classify_submit_correct (code : Nat) (e : String) :
    (code ∈ [200, 201, 202] →
      classify_submit (Except.ok code) = SubmitOutcome.success) ∧
    (code ∉ [200, 201, 202] →
      classify_submit (Except.ok code) = SubmitOutcome.nonFatalStatus code) ∧
    classify_submit (Except.error e) = SubmitOutcome.transportError e := by
  refine ⟨fun h => ?_, fun h => ?_, rfl⟩
  · simp [classify_submit, h]
  · simp [classify_submit, h]

/-- Witness for claim C2: a 201 response, a 404 response, and a connection
failure. -/
theorem classify_submit_correct_witness :
    classify_submit (Except.ok 201) = SubmitOutcome.success ∧
    classify_submit (Except.ok 404) = SubmitOutcome.nonFatalStatus 404 ∧
    classify_submit (Except.error "connection refused")
        = SubmitOutcome.transportError "connection refused" :=
  ⟨(classify_submit_correct 201 "x").1 (by decide),
   (classify_submit_correct 404 "x").2.1 (by decide),
   (classify_submit_correct 404 "connection refused").2.2⟩

/-- Claim C6: with no browser coordinate, no photo-derived EXIF coordinate
(no photo, an EXIF read failure, or a photo without GPS), and empty place
text, the resolver yields both fields absent, and the payload built from
that result has null latitude, longitude and place (construction does not
fail). -/
theorem unresolved_location_payload (u msg sev ts : String)
    (photo : Option (Except Unit (Option Coord)))
    (reverse : Coord → Option String) (forward : Except Unit (Option GeoLocation))
    (hphoto : photo = none ∨ photo = some (Except.error ()) ∨
      photo = some (Except.ok none)) :
    resolveLocation none photo "" reverse forward = (none, none) ∧
    (buildPayload u msg sev ts (resolveLocation none photo "" reverse forward).1
        (resolveLocation none photo "" reverse forward).2).location
      = ⟨none, none, none⟩ := by
  rcases hphoto with rfl | rfl | rfl <;> exact ⟨rfl, rfl⟩

/-- Witness for claim C6: a present photo without GPS EXIF, empty place
text, and no browser coordinate yield an unresolved location and a
null-location payload. -/
theorem unresolved_location_payload_witness :
    resolveLocation none (some (Except.ok none)) "" (fun _ => some "addr")
        (Except.error ()) = (none, none) ∧
    (buildPayload "alice" "msg" "Auto-detect" "2026-10-12T00:00:00Z"
        (resolveLocation none (some (Except.ok none)) "" (fun _ => some "addr")
          (Except.error ())).1
        (resolveLocation none (some (Except.ok none)) "" (fun _ => some "addr")
          (Except.error ())).2).location
      = ⟨none, none, none⟩ :=
  unresolved_location_payload "alice" "msg" "Auto-detect" "2026-10-12T00:00:00Z"
    (some (Except.ok none)) (fun _ => some "addr") (Except.error ())
    (Or.inr (Or.inr rfl))

/-- Claim C1: whenever a browser geolocation coordinate is present, the
resolved coordinate is exactly that browser coordinate, whatever the photo
(and hence whatever its EXIF GPS), the place text, and the geocoder
outcomes are. -/
theorem browser_precedence (bc : Coord)
    (photo : Option (Except Unit (Option Coord))) (placeText : String)
    (reverse : Coord → Option String)
    (forward : Except Unit (Option GeoLocation)) :
    (resolveLocation (some bc) photo placeText reverse forward).1 = some bc := by
  rcases photo with _ | (e | (_ | g)) <;> rfl

/-- Claim C7: with no browser coordinate and no photo-derived coordinate
(no photo, EXIF read failure, or no GPS in the photo), a non-empty place
text whose forward geocoding matches yields exactly the match's coordinate
and the forward geocoder's own address label; the reverse geocoder is not
consulted (the result holds for every `reverse`). -/
theorem manual_geocode_label (photo : Option (Except Unit (Option Coord)))
    (placeText : String) (reverse : Coord → Option String) (loc : GeoLocation)
    (hphoto : photo = none ∨ photo = some (Except.error ()) ∨
      photo = some (Except.ok none))
    (ht : placeText ≠ "") :
    resolveLocation none photo placeText reverse (Except.ok (some loc))
      = (some (loc.latitude, loc.longitude), some loc.address) := by
  rcases hphoto with rfl | rfl | rfl <;> simp [resolveLocation, ht]

/-- Witness for claim C7: the Dehradun example. -/
theorem manual_geocode_label_witness :
    resolveLocation none none "Dehradun, Uttarakhand" (fun _ => none)
        (Except.ok (some ⟨303165 / 10000, 780322 / 10000, "Dehradun, Uttarakhand, India"⟩))
      = (some (303165 / 10000, 780322 / 10000), some "Dehradun, Uttarakhand, India") :=
  manual_geocode_label none "Dehradun, Uttarakhand" (fun _ => none)
    ⟨303165 / 10000, 780322 / 10000, "Dehradun, Uttarakhand, India"⟩
    (Or.inl rfl) (by decide)

/-- Claim C9: in every reachable outcome of the location-resolution flow,
the place label is present only when the coordinate is present. -/
theorem place_implies_coords (browser : Option Coord)
    (photo : Option (Except Unit (Option Coord))) (placeText : String)
    (reverse : Coord → Option String) (forward : Except Unit (Option GeoLocation))
    (h : (resolveLocation browser photo placeText reverse forward).2.isSome = true) :
    (resolveLocation browser photo placeText reverse forward).1.isSome = true := by
  rcases browser with _ | bc
  · rcases photo with _ | (e | (_ | g))
    case some.ok.some => simp [resolveLocation]
    all_goals
      by_cases hp : placeText = ""
      · simp [resolveLocation, hp] at h
      · rcases forward with fe | (_ | loc)
        · simp [resolveLocation, hp] at h
        · simp [resolveLocation, hp] at h
        · simp [resolveLocation, hp]
  · rcases photo with _ | (e | (_ | g)) <;> rfl

/-- Witness for claim C9: a browser coordinate with a reverse-geocoded
label yields a set place label, and the coordinate is indeed set. -/
theorem place_implies_coords_witness :
    (resolveLocation (some (30, 78)) none "" (fun _ => some "addr")
        (Except.error ())).1.isSome = true :=
  place_implies_coords (some (30, 78)) none "" (fun _ => some "addr")
    (Except.error ()) rfl

/-- Claim C5 counterexample: with severity `Auto-detect`, no photo, and the
message "water" — which contains neither "flood" nor "submerged" — the
auto-detected color is "red", not the non-red default. -/
theorem severity_auto_water_red :
    markerColor "Auto-detect" none "water" = "red" ∧
    pyIn "flood" (pyLower "water") = false ∧
    pyIn "submerged" (pyLower "water") = false := by
  refine ⟨?_, ?_, ?_⟩ <;> decide

/-- Claim C5 (amended): with severity `Auto-detect`, a message containing
"flood" or "submerged" (case-insensitive) yields "red"; the color is the
non-red default "orange" exactly when the lowercased filename contains none
of "flood"/"water"/"flooding" and the lowercased message contains none of
"flood"/"water"/"danger"/"submerged" (the auto color is always "red" or
"orange", so any other input yields "red"). -/
theorem severity_auto_keywords (photoName : Option String) (message : String) :
    ((pyIn "flood" (pyLower message) = true ∨
      pyIn "submerged" (pyLower message) = true) →
      markerColor "Auto-detect" photoName message = "red") ∧
    (markerColor "Auto-detect" photoName message = "orange" ↔
      (fnKeywords.all (fun k => !pyIn k ((photoName.map pyLower).getD "")) = true ∧
       msgKeywords.all (fun k => !pyIn k (pyLower message)) = true)) ∧
    (markerColor "Auto-detect" photoName message = "red" ∨
      markerColor "Auto-detect" photoName message = "orange") := by
  have hchar : markerColor "Auto-detect" photoName message =
      (if (fnKeywords.any (fun k => pyIn k ((photoName.map pyLower).getD "")) ||
           msgKeywords.any (fun k => pyIn k (pyLower message))) = true
       then "red" else "orange") := rfl
  refine ⟨?_, ?_, ?_⟩
  · intro h
    have hB : msgKeywords.any (fun k => pyIn k (pyLower message)) = true := by
      rcases h with h | h
      · exact List.any_eq_true.mpr ⟨"flood", by simp [msgKeywords], h⟩
      · exact List.any_eq_true.mpr ⟨"submerged", by simp [msgKeywords], h⟩
    rw [hchar, if_pos (by simp [hB])]
  · rw [hchar]
    by_cases hc : (fnKeywords.any (fun k => pyIn k ((photoName.map pyLower).getD "")) ||
        msgKeywords.any (fun k => pyIn k (pyLower message))) = true
    · rw [if_pos hc]
      constructor
      · intro hro
        exact absurd hro (by decide)
      · rintro ⟨hfn, hmsg⟩
        exfalso
        rw [Bool.or_eq_true] at hc
        rcases hc with hA | hB
        · obtain ⟨x, hx, hpx⟩ := List.any_eq_true.mp hA
          have hall := List.all_eq_true.mp hfn x hx
          rw [Bool.not_eq_true'] at hall
          rw [hall] at hpx
          exact Bool.false_ne_true hpx
        · obtain ⟨x, hx, hpx⟩ := List.any_eq_true.mp hB
          have hall := List.all_eq_true.mp hmsg x hx
          rw [Bool.not_eq_true'] at hall
          rw [hall] at hpx
          exact Bool.false_ne_true hpx
    · rw [if_neg hc]
      constructor
      · intro _
        rw [Bool.or_eq_true] at hc
        push_neg at hc
        obtain ⟨hA, hB⟩ := hc
        simp only [ne_eq, Bool.not_eq_true] at hA hB
        constructor
        · rw [List.all_eq_true]
          intro x hx
          rw [Bool.not_eq_true']
          have hnx := List.any_eq_false.mp hA x hx
          rwa [Bool.not_eq_true] at hnx
        · rw [List.all_eq_true]
          intro x hx
          rw [Bool.not_eq_true']
          have hnx := List.any_eq_false.mp hB x hx
          rwa [Bool.not_eq_true] at hnx
      · intro _
        rfl
  · rw [hchar]
    by_cases hc : (fnKeywords.any (fun k => pyIn k ((photoName.map pyLower).getD "")) ||
        msgKeywords.any (fun k => pyIn k (pyLower message))) = true
    · rw [if_pos hc]
      exact Or.inl rfl
    · rw [if_neg hc]
      exact Or.inr rfl

/-- Witness for claim C5 (amended): a keyword message turns red, a
keyword-free message with a keyword-free filename turns orange, and a
keyword-bearing filename with a keyword-free message is not orange. -/
theorem severity_auto_keywords_witness :
    markerColor "Auto-detect" none "Flooding ahead" = "red" ∧
    markerColor "Auto-detect" (some "IMG_001.jpg") "all clear" = "orange" ∧
    markerColor "Auto-detect" (some "water.jpg") "all clear" ≠ "orange" := by
  refine ⟨(severity_auto_keywords none "Flooding ahead").1 (Or.inl (by decide)),
    (severity_auto_keywords (some "IMG_001.jpg") "all clear").2.1.mpr
      ⟨by decide, by decide⟩,
    fun horange => ?_⟩
  have h := (severity_auto_keywords (some "water.jpg") "all clear").2.1.mp horange
  have hw : pyIn "water" ((Option.map pyLower (some "water.jpg")).getD "") = true := by
    decide
  have h2 := List.all_eq_true.mp h.1 "water" (by simp [fnKeywords])
  rw [Bool.not_eq_true'] at h2
  rw [h2] at hw
  exact Bool.false_ne_true hw

/-- A zero denominator anywhere in the rational list makes the list
comprehension raise (`Except.error`), as Python float division does. -/
lemma ratsToDecimals_zero_den (l : List ExifRational)
    (h : ∃ x ∈ l, x.den = 0) : ratsToDecimals l = Except.error () := by
  induction l with
  | nil => simp at h
  | cons a t ih =>
    by_cases ha : a.den = 0
    · simp [ratsToDecimals, ratToDec, ha]
    · obtain ⟨x, hx, hd⟩ := h
      rcases List.mem_cons.mp hx with rfl | hxt
      · exact absurd hd ha
      · simp [ratsToDecimals, ratToDec, ha, ih ⟨x, hxt, hd⟩]

/-- Claim C4: `extract_gps_from_exif` always yields an optional coordinate
pair and never propagates an exception: whenever the try-body raises
(`process_file` failure on a non-image blob, zero-denominator division, or
any other error) the result is `none`, and a missing GPS tag (including the
no-EXIF-block case, where all four are missing) also yields `none`. -/
theorem extract_gps_never_raises (pf : ProcessFileOutcome) :
    (extract_gps_from_exif pf = none ∨ ∃ c, extract_gps_from_exif pf = some c) ∧
    (extractGpsBody pf = Except.error () → extract_gps_from_exif pf = none) ∧
    (pf = Except.error () → extract_gps_from_exif pf = none) ∧
    (∀ tags, pf = Except.ok tags →
      (tags.gpsLat = none ∨ tags.gpsLon = none ∨ tags.gpsLatRef = none ∨
        tags.gpsLonRef = none) →
      extract_gps_from_exif pf = none) ∧
    (∀ tags glat, pf = Except.ok tags → tags.gpsLat = some glat →
      (∃ x ∈ glat.values, x.den = 0) → extract_gps_from_exif pf = none) := by
  refine ⟨?_, ?_, ?_, ?_, ?_⟩
  · cases hx : extract_gps_from_exif pf with
    | none => exact Or.inl rfl
    | some c => exact Or.inr ⟨c, rfl⟩
  · intro h
    simp [extract_gps_from_exif, h]
  · rintro rfl
    rfl
  · rintro ⟨f1, f2, f3, f4⟩ rfl h
    rcases f1 with _ | glat <;> rcases f2 with _ | glatRef <;>
      rcases f3 with _ | glon <;> rcases f4 with _ | glonRef <;>
      simp_all [extract_gps_from_exif, extractGpsBody]
  · intro tags glat hpf hlat hz
    subst hpf
    obtain ⟨f1, f2, f3, f4⟩ := tags
    simp only at hlat
    subst hlat
    have hrr := ratsToDecimals_zero_den glat.values hz
    rcases f2 with _ | glatRef <;> rcases f3 with _ | glon <;>
      rcases f4 with _ | glonRef <;>
      simp [extract_gps_from_exif, extractGpsBody, hrr]

/-- Witness for claim C4: a raising `process_file`, a tag dictionary with
no GPS tags, and GPS tags holding a zero-denominator rational all yield
`none`. -/
theorem extract_gps_never_raises_witness :
    extract_gps_from_exif (Except.error ()) = none ∧
    extract_gps_from_exif (Except.ok ⟨none, none, none, none⟩) = none ∧
    extract_gps_from_exif
        (Except.ok ⟨some ⟨[⟨1, 0⟩]⟩, some ⟨"N"⟩, some ⟨[⟨1, 0⟩]⟩, some ⟨"E"⟩⟩)
      = none :=
  ⟨(extract_gps_never_raises (Except.error ())).2.2.1 rfl,
   (extract_gps_never_raises (Except.ok ⟨none, none, none, none⟩)).2.2.2.1
     ⟨none, none, none, none⟩ rfl (Or.inl rfl),
   (extract_gps_never_raises
       (Except.ok ⟨some ⟨[⟨1, 0⟩]⟩, some ⟨"N"⟩, some ⟨[⟨1, 0⟩]⟩, some ⟨"E"⟩⟩)).2.2.2.2
     ⟨some ⟨[⟨1, 0⟩]⟩, some ⟨"N"⟩, some ⟨[⟨1, 0⟩]⟩, some ⟨"E"⟩⟩ ⟨[⟨1, 0⟩]⟩ rfl rfl
     ⟨⟨1, 0⟩, by decide⟩⟩
